import Mathlib

/-!
Verification development for the borsajs data-access library.

Shallow embedding of the library's core state and logic:
* `src/cache.ts` — the TTL cache (`Cache`, `TTL`)
* `src/exceptions.ts` — the closed error taxonomy (`BorsajsError`)
* `src/providers/paratic.ts` — quote derivation, history normalization,
  period/range resolution and cache keys (`ParaticProvider`)
* `src/providers/dovizcom.ts` — history normalization and cache keys
  (`DovizcomProvider`)
* `src/providers/tefas.ts` — history cache keys and fund search
  (`TefasProvider`)
* `src/providers/kap.ts` — company list / search (`KapProvider`) and the
  TradingView WebSocket provider's timeout handlers (`TradingViewProvider`)
* `src/fx.ts`, `src/ticker.ts` — the domain facades (`FX`, `Ticker`,
  `TickerTV`)
* `src/multi.ts` — the multi-ticker batch download (`download`)

Conventions: JavaScript `Date` values and `Date.now()` are modelled as
integers (milliseconds since the epoch); JavaScript numbers as rationals;
network I/O (`this.get`, axios posts, token fetches) as an explicit
`fetch` argument of type `Except` supplied to each operation, carrying
either the parsed response body or a thrown transport error.
-/

/-! ## JavaScript primitives used by the sources -/

/-- JS `x || 0` applied to an already numeric value: `0` (falsy) maps to `0`,
anything else is returned unchanged. -/
def jsOr0 (x : ℚ) : ℚ := if x = 0 then 0 else x

/-- JS `Number(x) || 0` for a field that may be absent (`undefined`):
`Number(undefined)` is `NaN`, which `|| 0` turns into `0`. -/
def jsNumOr0 (x : Option ℚ) : ℚ :=
  match x with
  | none => 0
  | some q => jsOr0 q

@[simp]
theorem jsOr0_eq (x : ℚ) : jsOr0 x = x := by
  unfold jsOr0
  split <;> simp_all

/-- Whether the character list `p` is a prefix of `s`. -/
def charsStartWith : List Char → List Char → Bool
  | _, [] => true
  | [], _ :: _ => false
  | c :: cs, p :: ps => c = p && charsStartWith cs ps

/-- Whether `pat` occurs as a contiguous run of `s`. -/
def charsContain (s pat : List Char) : Bool :=
  match s with
  | [] => pat.isEmpty
  | _ :: cs => charsStartWith s pat || charsContain cs pat

/-- Replace the first occurrence of `pat` in `s` by `repl`. -/
def charsReplaceFirst (s pat repl : List Char) : List Char :=
  match s with
  | [] => []
  | c :: cs =>
    if charsStartWith (c :: cs) pat then repl ++ (c :: cs).drop pat.length
    else c :: charsReplaceFirst cs pat repl

/-- JS `String.prototype.includes`. -/
def jsIncludes (s q : String) : Bool := charsContain s.data q.data

/-- JS `String.prototype.replace` with a plain-string pattern: replaces only
the first occurrence. -/
def jsReplaceFirst (s pat repl : String) : String :=
  String.mk (charsReplaceFirst s.data pat.data repl.data)

/-- JS `String.prototype.toUpperCase` (ASCII, which is all the sources use). -/
def jsToUpper (s : String) : String := String.mk (s.data.map Char.toUpper)

/-- JS `String.prototype.toLowerCase` (ASCII, which is all the sources use). -/
def jsToLower (s : String) : String := String.mk (s.data.map Char.toLower)

/-- JS whitespace for `String.prototype.trim`. -/
def jsIsSpace (c : Char) : Bool := c = ' ' || c = '\t' || c = '\n' || c = '\r'

/-- JS `String.prototype.trim`. -/
def jsTrim (s : String) : String :=
  String.mk (((s.data.dropWhile jsIsSpace).reverse.dropWhile jsIsSpace).reverse)

/-- `symbol.toUpperCase().replace('.IS', '').replace('.E', '')` — the symbol
normalization used by the Paratic provider, `Ticker` and `TickerTV`. -/
def normalizeSymbol (s : String) : String :=
  jsReplaceFirst (jsReplaceFirst (jsToUpper s) ".IS" "") ".E" ""

/-- One day in milliseconds (`24 * 60 * 60 * 1000`). -/
def dayMs : ℤ := 24 * 60 * 60 * 1000

/-- Left-pad a numeral with zeros (JS `String(n).padStart(w, '0')`). -/
def padZero (w : Nat) (n : Nat) : String :=
  let s := toString n
  String.mk (List.replicate (w - s.length) '0') ++ s

/-- Civil date (year, month, day) of a day count since 1970-01-01 (UTC),
the standard Gregorian-calendar conversion used by JS `Date`. -/
def civilFromDays (z0 : ℤ) : ℤ × ℤ × ℤ :=
  let z := z0 + 719468
  let era := Int.fdiv z 146097
  let doe := z - era * 146097
  let yoe := Int.fdiv (doe - Int.fdiv doe 1460 + Int.fdiv doe 36524 - Int.fdiv doe 146096) 365
  let y := yoe + era * 400
  let doy := doe - (365 * yoe + Int.fdiv yoe 4 - Int.fdiv yoe 100)
  let mp := Int.fdiv (5 * doy + 2) 153
  let d := doy - Int.fdiv (153 * mp + 2) 5 + 1
  let m := mp + (if mp < 10 then 3 else -9)
  (y + (if m ≤ 2 then 1 else 0), m, d)

/-- JS `Date.prototype.toISOString` on a millisecond timestamp:
`YYYY-MM-DDTHH:mm:ss.sssZ` in UTC. -/
def msToISOString (ms : ℤ) : String :=
  let days := Int.fdiv ms dayMs
  let msOfDay := (ms - days * dayMs).toNat
  let ymd := civilFromDays days
  let hh := msOfDay / 3600000
  let mi := msOfDay % 3600000 / 60000
  let ss := msOfDay % 60000 / 1000
  let sss := msOfDay % 1000
  padZero 4 ymd.1.toNat ++ "-" ++ padZero 2 ymd.2.1.toNat ++ "-" ++ padZero 2 ymd.2.2.toNat
    ++ "T" ++ padZero 2 hh ++ ":" ++ padZero 2 mi ++ ":" ++ padZero 2 ss
    ++ "." ++ padZero 3 sss ++ "Z"

/-- JS `Math.round` on an exact rational: round half toward positive
infinity, `Math.round(x) = Math.floor(x + 0.5)`. -/
def jsRound (x : ℚ) : ℤ := ⌊x + 1 / 2⌋

/-- `Math.round(x * 100) / 100` — round to two decimal places, as the Paratic
provider applies to `change` and `changePercent`. -/
def round2 (x : ℚ) : ℚ := (jsRound (x * 100) : ℚ) / 100

/-! ## Sorting by an integer key

`records.sort((a, b) => a.date.getTime() - b.date.getTime())` — an ascending
sort by an integer key. Modelled as insertion sort; the claims depend on the
output being ascending by key and having the same members. -/

/-- Insert into a list sorted ascending by `key`. -/
def insertByKey {α : Type} (key : α → ℤ) (x : α) : List α → List α
  | [] => [x]
  | y :: ys => if key x ≤ key y then x :: y :: ys else y :: insertByKey key x ys

/-- Sort ascending by an integer key (the JS comparator `(a, b) => key a - key b`). -/
def sortByKey {α : Type} (key : α → ℤ) (l : List α) : List α :=
  l.foldr (insertByKey key) []

theorem mem_insertByKey {α : Type} (key : α → ℤ) (x : α) (l : List α) (a : α) :
    a ∈ insertByKey key x l ↔ a = x ∨ a ∈ l := by
  induction l with
  | nil => simp [insertByKey]
  | cons y ys ih =>
    by_cases h : key x ≤ key y
    · simp [insertByKey, h]
    · simp only [insertByKey, if_neg h, List.mem_cons, ih]
      tauto

theorem mem_sortByKey {α : Type} (key : α → ℤ) (l : List α) (a : α) :
    a ∈ sortByKey key l ↔ a ∈ l := by
  induction l with
  | nil => simp [sortByKey]
  | cons y ys ih =>
    simp only [sortByKey, List.foldr_cons] at *
    rw [mem_insertByKey, ih]
    simp

theorem pairwise_insertByKey {α : Type} (key : α → ℤ) (x : α) (l : List α)
    (h : l.Pairwise (fun a b => key a ≤ key b)) :
    (insertByKey key x l).Pairwise (fun a b => key a ≤ key b) := by
  induction l with
  | nil => simp [insertByKey]
  | cons y ys ih =>
    rcases List.pairwise_cons.mp h with ⟨hy, hys⟩
    by_cases hk : key x ≤ key y
    · rw [insertByKey, if_pos hk]
      refine List.pairwise_cons.mpr ⟨?_, h⟩
      intro b hb
      rcases List.mem_cons.mp hb with rfl | hb
      · exact hk
      · exact le_trans hk (hy b hb)
    · rw [insertByKey, if_neg hk]
      refine List.pairwise_cons.mpr ⟨?_, ih hys⟩
      intro b hb
      rcases (mem_insertByKey key x ys b).mp hb with rfl | hb
      · exact le_of_not_le hk
      · exact hy b hb

theorem pairwise_sortByKey {α : Type} (key : α → ℤ) (l : List α) :
    (sortByKey key l).Pairwise (fun a b => key a ≤ key b) := by
  induction l with
  | nil => simp [sortByKey]
  | cons y ys ih => exact pairwise_insertByKey key y _ ih

/-! ## `src/exceptions.ts` — the closed error taxonomy -/

/-- The `BorsajsError` hierarchy of `src/exceptions.ts`, as a tagged union.
Each constructor carries the structured payload of the corresponding class
(`APIError` a message and an optional status code, `TickerNotFoundError`
the symbol, `InvalidPeriodError` the offending period token, ...). -/
inductive BorsajsError : Type
  | tickerNotFound (symbol : String)
  | dataNotAvailable (message : String)
  | apiError (message : String) (statusCode : Option ℕ)
  | authenticationError (message : String)
  | rateLimitError (message : String)
  | invalidPeriod (period : String)
  | invalidInterval (interval : String)
deriving DecidableEq, Repr

/-- `InvalidPeriodError.VALID_PERIODS`. -/
def VALID_PERIODS : List String :=
  ["1d", "5d", "1mo", "3mo", "6mo", "1y", "2y", "5y", "10y", "ytd", "max"]

/-- `InvalidPeriodError`'s message lists the offending value and the accepted
tokens (`src/exceptions.ts` lines 89-92). -/
def invalidPeriodMessage (period : String) : String :=
  "Invalid period: " ++ period ++ ". Valid periods: " ++ String.intercalate ", " VALID_PERIODS

/-! ## `src/cache.ts` — the TTL cache

`Map<string, CacheEntry<unknown>>` is modelled as an association list with
at most one live entry per key (JS `Map` semantics: `set` overwrites,
`delete` removes the key). `Date.now()` is passed explicitly. The JS cache
is one heterogeneous map; here each provider operation gets a `Cache` at
its own value type, which keeps the same per-key behaviour. -/

structure Cache (α : Type) : Type where
  store : List (String × α × ℤ)

namespace Cache

def empty {α : Type} : Cache α := ⟨[]⟩

/-- Whether the underlying map has an entry for `key` (expired or not). -/
def containsKey {α : Type} (c : Cache α) (key : String) : Bool :=
  c.store.any (fun e => e.1 = key)

/-- `get<T>(key)`: the stored value if present and not expired; an expired
entry is deleted and `null` returned (`src/cache.ts` lines 19-29). Returns
the possibly-updated cache alongside the result. -/
def get {α : Type} (c : Cache α) (now : ℤ) (key : String) : Cache α × Option α :=
  match c.store.find? (fun e => e.1 = key) with
  | none => (c, none)
  | some (_, v, expiresAt) =>
    if now > expiresAt then (⟨c.store.filter (fun e => e.1 ≠ key)⟩, none)
    else (c, some v)

/-- `set<T>(key, value, ttlSeconds)`: store with
`expiresAt = Date.now() + ttlSeconds * 1000`, overwriting any existing
entry (`src/cache.ts` lines 34-39). -/
def set {α : Type} (c : Cache α) (key : String) (v : α) (ttlSeconds : ℤ) (now : ℤ) : Cache α :=
  ⟨c.store.filter (fun e => e.1 ≠ key) ++ [(key, v, now + ttlSeconds * 1000)]⟩

/-- `delete(key)`: remove, reporting whether the key existed. -/
def delete {α : Type} (c : Cache α) (key : String) : Cache α × Bool :=
  (⟨c.store.filter (fun e => e.1 ≠ key)⟩, c.containsKey key)

/-- `clear()`. -/
def clear {α : Type} (_c : Cache α) : Cache α := ⟨[]⟩

/-- `get size()`: the number of entries currently stored, stale ones
included (`src/cache.ts` lines 73-75). -/
def size {α : Type} (c : Cache α) : ℕ := c.store.length

end Cache

/-- The `TTL` table of `src/cache.ts` (seconds). -/
def TTL_REALTIME_PRICE : ℤ := 60

def TTL_OHLCV_HISTORY : ℤ := 3600

def TTL_FX_RATES : ℤ := 300

def TTL_FUND_DATA : ℤ := 3600

def TTL_COMPANY_LIST : ℤ := 86400

/-! ### Cache lemmas -/

theorem cache_find_set {α : Type} (c : Cache α) (k : String) (v : α) (t now : ℤ) :
    (c.set k v t now).store.find? (fun e => e.1 = k) = some (k, v, now + t * 1000) := by
  unfold Cache.set
  rw [List.find?_append]
  have h1 : (c.store.filter (fun e => e.1 ≠ k)).find? (fun e => e.1 = k) = none := by
    rw [List.find?_eq_none]
    intro e he
    have := (List.mem_filter.mp he).2
    simp only [ne_eq, decide_not, Bool.not_eq_true', decide_eq_false_iff_not] at this
    simp [this]
  rw [h1]
  simp

theorem cache_get_eq_of_find {α : Type} (c : Cache α) (now : ℤ) (k : String)
    (v : α) (expiresAt : ℤ)
    (h : c.store.find? (fun e => e.1 = k) = some (k, v, expiresAt)) :
    c.get now k = if now > expiresAt then (⟨c.store.filter (fun e => e.1 ≠ k)⟩, none)
      else (c, some v) := by
  unfold Cache.get
  rw [h]

theorem cache_get_not_contains {α : Type} (c : Cache α) (now : ℤ) (k : String)
    (h : c.containsKey k = false) : (c.get now k).2 = none := by
  unfold Cache.get
  have hf : c.store.find? (fun e => e.1 = k) = none := by
    rw [List.find?_eq_none]
    intro e he
    unfold Cache.containsKey at h
    rw [List.any_eq_false] at h
    exact h e he
  rw [hf]

/-- C1 helper: the store of `c.set k v t now` restricted to keys other
than `k` is exactly the filtered original store. -/
theorem cache_set_filter {α : Type} (c : Cache α) (k : String) (v : α) (t now : ℤ) :
    (c.set k v t now).store.filter (fun e => e.1 ≠ k) = c.store.filter (fun e => e.1 ≠ k) := by
  unfold Cache.set
  rw [List.filter_append, List.filter_filter]
  simp

/--
C1. For every key `k`, value `v` and `ttlSeconds t > 0`: immediately after
`Cache.set(k, v, t)`, `Cache.get(k)` returns `v`; once the wall-clock time
strictly exceeds the stored expiration (time of `set` plus `t` seconds),
`Cache.get(k)` returns absent and removes the entry, so a subsequent `size`
no longer counts `k`; and `Cache.get` on a key that was never set returns
absent.
-/
theorem cache_ttl_expiry_spec {α : Type} (c : Cache α) (k : String) (v : α)
    (t now now' : ℤ) (ht : 0 < t) :
    ((c.set k v t now).get now k).2 = some v
    ∧ (now + t * 1000 < now' →
        ((c.set k v t now).get now' k).2 = none
        ∧ ((c.set k v t now).get now' k).1.size = (c.set k v t now).size - 1
        ∧ ((c.set k v t now).get now' k).1.containsKey k = false)
    ∧ (c.containsKey k = false → (c.get now k).2 = none) := by
  refine ⟨?_, ?_, cache_get_not_contains c now k⟩
  · rw [cache_get_eq_of_find _ now k v (now + t * 1000) (cache_find_set c k v t now)]
    have hle : ¬ now > now + t * 1000 := by nlinarith
    rw [if_neg hle]
  · intro hexp
    rw [cache_get_eq_of_find _ now' k v (now + t * 1000) (cache_find_set c k v t now)]
    rw [if_pos hexp]
    refine ⟨rfl, ?_, ?_⟩
    · show (List.filter _ _).length = (c.set k v t now).size - 1
      rw [cache_set_filter]
      unfold Cache.set Cache.size
      rw [List.length_append]
      simp
    · show Cache.containsKey ⟨List.filter _ _⟩ k = false
      unfold Cache.containsKey
      rw [List.any_eq_false]
      intro e he
      have := (List.mem_filter.mp he).2
      simp only [ne_eq, decide_not, Bool.not_eq_true', decide_eq_false_iff_not] at this
      simp [this]

/-- Witness for C1: a concrete run of set/get/expire on the empty cache. -/
theorem cache_ttl_expiry_spec_witness :
    ((Cache.empty.set "paratic:quote:THYAO" (5 : ℚ) 60 0).get 0 "paratic:quote:THYAO").2 = some 5
    ∧ (((Cache.empty.set "paratic:quote:THYAO" (5 : ℚ) 60 0).get 60001 "paratic:quote:THYAO").2 = none
        ∧ ((Cache.empty.set "paratic:quote:THYAO" (5 : ℚ) 60 0).get 60001 "paratic:quote:THYAO").1.size
            = (Cache.empty.set "paratic:quote:THYAO" (5 : ℚ) 60 0).size - 1
        ∧ ((Cache.empty.set "paratic:quote:THYAO" (5 : ℚ) 60 0).get 60001 "paratic:quote:THYAO").1.containsKey
            "paratic:quote:THYAO" = false) := by
  have h := cache_ttl_expiry_spec (α := ℚ) Cache.empty "paratic:quote:THYAO" 5 60 0 60001
    (by norm_num)
  exact ⟨h.1, h.2.1 (by norm_num)⟩

/-! ## `src/providers/paratic.ts` — quotes and historical OHLCV -/

/-- One element of the Paratic response array (`ParaticDataItem`):
`d` a millisecond timestamp, `o/h/l/c/v` prices and volume. -/
structure ParaticDataItem : Type where
  d : ℤ
  o : ℚ
  h : ℚ
  l : ℚ
  c : ℚ
  v : ℚ
deriving DecidableEq, Repr

/-- `QuoteData` of `src/providers/paratic.ts`. `updateTime` is the
millisecond timestamp passed to `new Date(latest.d)`. -/
structure QuoteData : Type where
  symbol : String
  last : ℚ
  «open» : ℚ
  high : ℚ
  low : ℚ
  close : ℚ
  volume : ℚ
  change : ℚ
  changePercent : ℚ
  updateTime : ℤ
deriving DecidableEq, Repr

/-- `OHLCVData` of `src/providers/paratic.ts` (`date` in epoch ms). -/
structure OHLCVData : Type where
  date : ℤ
  «open» : ℚ
  high : ℚ
  low : ℚ
  close : ℚ
  volume : ℚ
deriving DecidableEq, Repr

/-- `HistoryOptions` of `src/providers/paratic.ts`; `start`/`end` are
`Date` values in epoch ms. -/
structure HistoryOptions : Type where
  period : Option String := none
  interval : Option String := none
  start : Option ℤ := none
  «end» : Option ℤ := none
deriving DecidableEq, Repr

namespace ParaticProvider

/-- `ParaticProvider.PERIOD_MAP` (days per period token; no `ytd` entry). -/
def PERIOD_MAP : List (String × ℤ) :=
  [("1d", 1), ("5d", 5), ("1mo", 30), ("3mo", 90), ("6mo", 180), ("1y", 365),
   ("2y", 730), ("5y", 1825), ("10y", 3650), ("max", 3650)]

/-- `ParaticProvider.INTERVAL_MAP` (minutes per interval token). -/
def INTERVAL_MAP : List (String × ℤ) :=
  [("1m", 1), ("3m", 3), ("5m", 5), ("15m", 15), ("30m", 30), ("45m", 45),
   ("1h", 60), ("1d", 1440), ("1wk", 10080), ("1mo", 43200)]

/-- The quote derivation of `getQuote` (`src/providers/paratic.ts` lines
42-53) applied to the fetched series; `none` exactly when the series is
empty (the source first throws `TickerNotFoundError` on
`!data || data.length === 0`, then reads `data[data.length - 1]`). -/
def quoteFromData (symbol : String) (data : List ParaticDataItem) : Option QuoteData :=
  match data.getLast? with
  | none => none
  | some latest =>
    let prev : Option ParaticDataItem :=
      if data.length > 1 then data[data.length - 2]? else none
    let prevClose : ℚ := match prev with | some p => jsOr0 p.c | none => 0
    let last : ℚ := jsOr0 latest.c
    let change : ℚ := if prevClose ≠ 0 then last - prevClose else 0
    let changePct : ℚ := if prevClose ≠ 0 then change / prevClose * 100 else 0
    some { symbol := symbol, last := last, «open» := jsOr0 latest.o,
           high := jsOr0 latest.h, low := jsOr0 latest.l, close := prevClose,
           volume := jsOr0 latest.v, change := round2 change,
           changePercent := round2 changePct, updateTime := latest.d }

/-- `getQuote` (`src/providers/paratic.ts` lines 30-60). `fetch` models the
outbound request: a thrown transport error or the parsed body
(`response.data`, possibly `undefined`). -/
def getQuote (cache : Cache QuoteData) (now : ℤ) (symbol0 : String)
    (fetch : Except String (Option (List ParaticDataItem))) :
    Cache QuoteData × Except BorsajsError QuoteData :=
  let symbol := normalizeSymbol symbol0
  let cacheKey := "paratic:quote:" ++ symbol
  match cache.get now cacheKey with
  | (cache1, some cached) => (cache1, .ok cached)
  | (cache1, none) =>
    match fetch with
    | .error err =>
      (cache1, .error (.apiError ("Failed to fetch quote for " ++ symbol ++ ": " ++ err) none))
    | .ok body =>
      match quoteFromData symbol (body.getD []) with
      | none => (cache1, .error (.tickerNotFound symbol))
      | some result => (cache1.set cacheKey result TTL_REALTIME_PRICE now, .ok result)

end ParaticProvider

/-! ### C2 — locally derived change / changePercent -/

theorem round2_zero : round2 0 = 0 := by
  unfold round2 jsRound
  norm_num

/--
C2 (amended). In the quote derived by `ParaticProvider.getQuote` from the
fetched series, the stored `close` is the previous bar's close (`0` when
there is no previous bar, so when the series has at most one element), and:
when `close = 0` both `change` and `changePercent` are `0` (no division by
zero, never an infinity or NaN since all values are exact rationals); when
`close ≠ 0`, `change` and `changePercent` equal `last - close` and
`(last - close) / close * 100` rounded to two decimal places
(`Math.round(x * 100) / 100`) — not the exact quotients the claim states.
-/
theorem paratic_quote_change_spec (symbol : String) (data : List ParaticDataItem)
    (q : QuoteData) (hq : ParaticProvider.quoteFromData symbol data = some q) :
    (q.close = 0 → q.change = 0 ∧ q.changePercent = 0)
    ∧ (q.close ≠ 0 → q.change = round2 (q.last - q.close)
        ∧ q.changePercent = round2 ((q.last - q.close) / q.close * 100))
    ∧ (data.length ≤ 1 → q.close = 0) := by
  unfold ParaticProvider.quoteFromData at hq
  rcases hlast : data.getLast? with _ | latest
  · rw [hlast] at hq
    exact absurd hq (by simp)
  · rw [hlast] at hq
    simp only [Option.some.injEq] at hq
    subst hq
    refine ⟨?_, ?_, ?_⟩
    · intro hz
      simp only at hz ⊢
      rw [hz]
      simp [round2_zero]
    · intro hnz
      simp only at hnz ⊢
      rw [if_pos hnz, if_pos hnz]
      exact ⟨rfl, rfl⟩
    · intro hlen
      simp only
      rw [if_neg (by omega)]

/-- Witness for C2: `last = 110`, `previousClose = 100` gives
`change = 10` and `changePercent = 10`. -/
theorem paratic_quote_change_spec_witness :
    ParaticProvider.quoteFromData "THYAO"
        [⟨500, 0, 0, 0, 100, 0⟩, ⟨1000, 0, 0, 0, 110, 0⟩] = some
      { symbol := "THYAO", last := 110, «open» := 0, high := 0, low := 0, close := 100,
        volume := 0, change := 10, changePercent := 10, updateTime := 1000 }
    ∧ (100 : ℚ) ≠ 0
    ∧ ((10 : ℚ) = round2 ((110 : ℚ) - 100) ∧ (10 : ℚ) = round2 (((110 : ℚ) - 100) / 100 * 100)) := by
  have hq : ParaticProvider.quoteFromData "THYAO"
      [⟨500, 0, 0, 0, 100, 0⟩, ⟨1000, 0, 0, 0, 110, 0⟩] = some
      { symbol := "THYAO", last := 110, «open» := 0, high := 0, low := 0, close := 100,
        volume := 0, change := 10, changePercent := 10, updateTime := 1000 } := by
    unfold ParaticProvider.quoteFromData
    simp only [List.getLast?, List.length_cons, List.length_nil, jsOr0]
    norm_num [round2, jsRound]
  have h := (paratic_quote_change_spec _ _ _ hq).2.1 (by norm_num)
  exact ⟨hq, by norm_num, by simpa using h⟩

/--
C2 counterexample: with `previousClose = 3` and `last = 4` the returned
`changePercent` is `33.33` (rounded to two decimals), not
`change / previousClose * 100 = 100/3 = 33.333...` as the claim states.
-/
theorem paratic_quote_change_claim_cex :
    ((ParaticProvider.getQuote Cache.empty 0 "THYAO"
        (.ok (some [⟨500, 0, 0, 0, 3, 0⟩, ⟨1000, 0, 0, 0, 4, 0⟩]))).2.toOption.map
      (fun q => q.changePercent)) = some (3333 / 100)
    ∧ (3333 / 100 : ℚ) ≠ ((4 : ℚ) - 3) / 3 * 100 := by
  constructor
  · unfold ParaticProvider.getQuote ParaticProvider.quoteFromData
    simp only [Cache.get, Cache.empty, List.find?, Option.getD, List.getLast?,
      List.length_cons, List.length_nil, jsOr0]
    norm_num [round2, jsRound]
    exact ⟨_, rfl, rfl⟩
  · norm_num

/-! ### Paratic historical fetch (`src/providers/paratic.ts` lines 62-91) -/

namespace ParaticProvider

/-- Range resolution of `getHistory`: `endDt = end ?? new Date()`,
`startDt = start ?? endDt - (PERIOD_MAP[period] ?? 30) days`. -/
def resolveHistoryRange (now : ℤ) (opts : HistoryOptions) : ℤ × ℤ :=
  let period := opts.period.getD "1mo"
  let endDt := opts.«end».getD now
  let startDt := opts.start.getD (endDt - ((PERIOD_MAP.lookup period).getD 30) * dayMs)
  (startDt, endDt)

/-- The cache key of `getHistory` (lines 68-70): symbol, period and interval
tokens, and the ISO start/end instants only when explicitly supplied. -/
def historyCacheKey (symbol : String) (opts : HistoryOptions) : String :=
  "paratic:history:" ++ symbol ++ ":" ++ opts.period.getD "1mo" ++ ":" ++ opts.interval.getD "1d"
    ++ (match opts.start with | some s => ":" ++ msToISOString s | none => "")
    ++ (match opts.«end» with | some e => ":" ++ msToISOString e | none => "")

/-- The record normalization of `getHistory` (lines 82-84): keep items with
a truthy timestamp inside `[startDt, endDt]`, coerce fields, sort by date. -/
def normalizeHistory (startDt endDt : ℤ) (data : List ParaticDataItem) : List OHLCVData :=
  sortByKey (fun r => r.date)
    ((data.filter (fun item =>
        decide (item.d ≠ 0) && decide (startDt ≤ item.d) && decide (item.d ≤ endDt))).map
      (fun item => { date := item.d, «open» := jsOr0 item.o, high := jsOr0 item.h,
                     low := jsOr0 item.l, close := jsOr0 item.c, volume := jsOr0 item.v }))

/-- `getHistory` (lines 62-91): resolve the range, try the cache, fetch,
normalize, store with the OHLCV TTL. An unrecognized period token falls
back to 30 days through `PERIOD_MAP[period] ?? 30`. -/
def getHistory (cache : Cache (List OHLCVData)) (now : ℤ) (symbol0 : String)
    (opts : HistoryOptions) (fetch : Except String (Option (List ParaticDataItem))) :
    Cache (List OHLCVData) × Except BorsajsError (List OHLCVData) :=
  match cache.get now (historyCacheKey (normalizeSymbol symbol0) opts) with
  | (cache1, some cached) => (cache1, .ok cached)
  | (cache1, none) =>
    match fetch with
    | .error err =>
      (cache1, .error (.apiError
        ("Failed to fetch data for " ++ normalizeSymbol symbol0 ++ ": " ++ err) none))
    | .ok body =>
      match body.getD [] with
      | [] =>
        (cache1, .error (.dataNotAvailable
          ("No data available for " ++ normalizeSymbol symbol0)))
      | item :: rest =>
        (cache1.set (historyCacheKey (normalizeSymbol symbol0) opts)
            (normalizeHistory (resolveHistoryRange now opts).1 (resolveHistoryRange now opts).2
              (item :: rest))
            TTL_OHLCV_HISTORY now,
         .ok (normalizeHistory (resolveHistoryRange now opts).1 (resolveHistoryRange now opts).2
              (item :: rest)))

end ParaticProvider

/-! ## `src/providers/dovizcom.ts` — FX history -/

/-- `FXHistoryData` of `src/providers/dovizcom.ts` (`date` in epoch ms). -/
structure FXHistoryData : Type where
  date : ℤ
  «open» : ℚ
  high : ℚ
  low : ℚ
  close : ℚ
deriving DecidableEq, Repr

/-- The `HistoryOptions` shape shared by `src/providers/dovizcom.ts` and
`src/providers/tefas.ts`: a period token or explicit start/end instants. -/
structure RangeHistoryOptions : Type where
  period : Option String := none
  start : Option ℤ := none
  «end» : Option ℤ := none
deriving DecidableEq, Repr

/-- An element of the doviz.com archive payload (`ArchiveItem`); every field
optional, `update_date` a Unix-seconds timestamp. -/
structure ArchiveItem : Type where
  update_date : Option ℤ := none
  «open» : Option ℚ := none
  highest : Option ℚ := none
  lowest : Option ℚ := none
  close : Option ℚ := none
deriving DecidableEq, Repr

namespace DovizcomProvider

/-- `DovizcomProvider.PERIOD_DAYS`. -/
def PERIOD_DAYS : List (String × ℤ) :=
  [("1d", 1), ("5d", 5), ("1mo", 30), ("3mo", 90), ("6mo", 180), ("1y", 365)]

/-- `DovizcomProvider.SUPPORTED_ASSETS`. -/
def SUPPORTED_ASSETS : List String :=
  ["USD", "EUR", "GBP", "JPY", "CHF", "CAD", "AUD", "gram-altin", "gumus", "ons",
   "XAG-USD", "XPT-USD", "XPD-USD", "BRENT", "WTI", "diesel", "gasoline", "lpg"]

/-- Asset normalization of `getCurrent`/`getHistory`: upper-case the asset
only when the upper-cased form is a supported asset. -/
def normalizeAsset (asset : String) : String :=
  if SUPPORTED_ASSETS.contains (jsToUpper asset) then jsToUpper asset else asset

/-- Range resolution of `getHistory` (`src/providers/dovizcom.ts` lines
88-89): `endDt = end ?? now`, `startDt = start ?? endDt -
(PERIOD_DAYS[period] ?? 30) days`. -/
def resolveHistoryRange (now : ℤ) (opts : RangeHistoryOptions) : ℤ × ℤ :=
  let period := opts.period.getD "1mo"
  let endDt := opts.«end».getD now
  let startDt := opts.start.getD (endDt - ((PERIOD_DAYS.lookup period).getD 30) * dayMs)
  (startDt, endDt)

/-- The cache key of `getHistory` (line 90): asset plus the resolved
start/end instants in ISO form. -/
def historyCacheKey (normalizedAsset : String) (startDt endDt : ℤ) : String :=
  "dovizcom:history:" ++ normalizedAsset ++ ":" ++ msToISOString startDt ++ ":"
    ++ msToISOString endDt

/-- The record normalization of `getHistory` (lines 101-104): map every
archive item (no range trim — the requested range is only forwarded
upstream), then sort by date. `update_date` seconds become ms. -/
def normalizeHistory (archive : List ArchiveItem) : List FXHistoryData :=
  sortByKey (fun r => r.date)
    (archive.map (fun item =>
      { date := (item.update_date.getD 0) * 1000, «open» := jsNumOr0 item.«open»,
        high := jsNumOr0 item.highest, low := jsNumOr0 item.lowest,
        close := jsNumOr0 item.close }))

/-- `getHistory` (`src/providers/dovizcom.ts` lines 83-108). `fetch` models
the token fetch plus archive request; its payload is
`response.data?.data?.archive` (`?? []`). -/
def getHistory (cache : Cache (List FXHistoryData)) (now : ℤ) (asset : String)
    (opts : RangeHistoryOptions) (fetch : Except String (Option (List ArchiveItem))) :
    Cache (List FXHistoryData) × Except BorsajsError (List FXHistoryData) :=
  if SUPPORTED_ASSETS.contains (normalizeAsset asset) = false then
    (cache, .error (.dataNotAvailable ("Unsupported asset: " ++ asset)))
  else
    match cache.get now (historyCacheKey (normalizeAsset asset)
        (resolveHistoryRange now opts).1 (resolveHistoryRange now opts).2) with
    | (cache1, some cached) => (cache1, .ok cached)
    | (cache1, none) =>
      match fetch with
      | .error err =>
        (cache1, .error (.apiError ("Failed to fetch history for " ++ asset ++ ": " ++ err) none))
      | .ok body =>
        (cache1.set (historyCacheKey (normalizeAsset asset)
              (resolveHistoryRange now opts).1 (resolveHistoryRange now opts).2)
            (normalizeHistory (body.getD [])) TTL_OHLCV_HISTORY now,
         .ok (normalizeHistory (body.getD [])))

end DovizcomProvider

/-! ## `src/providers/tefas.ts` — fund history keys (claim C4) -/

namespace TefasProvider

/-- `TefasProvider.PERIOD_DAYS`. -/
def PERIOD_DAYS : List (String × ℤ) :=
  [("1d", 1), ("5d", 5), ("1mo", 30), ("3mo", 90), ("6mo", 180), ("1y", 365)]

/-- Range resolution of `getHistory` (`src/providers/tefas.ts` lines
200-208). -/
def resolveHistoryRange (now : ℤ) (opts : RangeHistoryOptions) : ℤ × ℤ :=
  let endDt := opts.«end».getD now
  let startDt := opts.start.getD (endDt - ((PERIOD_DAYS.lookup (opts.period.getD "1mo")).getD 30) * dayMs)
  (startDt, endDt)

/-- The cache key of `getHistory` (line 210): fund code plus the resolved
start/end instants in ISO form. -/
def historyCacheKey (fundCode : String) (startDt endDt : ℤ) : String :=
  "tefas:history:" ++ fundCode ++ ":" ++ msToISOString startDt ++ ":" ++ msToISOString endDt

end TefasProvider

/-- Decidable equality for `Except` results (used to evaluate provider
outcomes on concrete inputs). -/
instance {ε α : Type} [DecidableEq ε] [DecidableEq α] : DecidableEq (Except ε α) := fun x y =>
  match x, y with
  | .ok a, .ok b => if h : a = b then .isTrue (by rw [h]) else .isFalse (by simp [h])
  | .error a, .error b => if h : a = b then .isTrue (by rw [h]) else .isFalse (by simp [h])
  | .ok _, .error _ => .isFalse (by simp)
  | .error _, .ok _ => .isFalse (by simp)

/-! ### C3 — range trim, ordering, duplicate timestamps -/

/--
C3 (amended). Every history normalizer sorts its output ascending by
timestamp (non-strictly: duplicate timestamps are not removed).
`ParaticProvider.getHistory` additionally trims records outside the
resolved `[start, end]` range; `DovizcomProvider.getHistory` performs no
trim of its own (it only forwards the requested range upstream), so its
output records may carry timestamps outside the resolved range.
-/
theorem history_sorted_and_paratic_trim_spec (startDt endDt : ℤ)
    (data : List ParaticDataItem) (archive : List ArchiveItem) :
    (ParaticProvider.normalizeHistory startDt endDt data).Pairwise (fun a b => a.date ≤ b.date)
    ∧ (∀ r ∈ ParaticProvider.normalizeHistory startDt endDt data,
        startDt ≤ r.date ∧ r.date ≤ endDt)
    ∧ (DovizcomProvider.normalizeHistory archive).Pairwise (fun a b => a.date ≤ b.date) := by
  refine ⟨pairwise_sortByKey _ _, ?_, pairwise_sortByKey _ _⟩
  intro r hr
  unfold ParaticProvider.normalizeHistory at hr
  rw [mem_sortByKey] at hr
  obtain ⟨item, hitem, rfl⟩ := List.mem_map.mp hr
  have hcond := (List.mem_filter.mp hitem).2
  simp only [Bool.and_eq_true, decide_eq_true_eq] at hcond
  exact ⟨hcond.1.2, hcond.2⟩

/--
C3 counterexample: a doviz.com historical fetch over the resolved range
`[1000000, 2000000]` whose upstream payload holds two records with the same
out-of-range timestamp returns both records unchanged: the output has a
duplicate timestamp `5000` lying outside the resolved range.
-/
theorem history_range_claim_cex :
    (DovizcomProvider.getHistory Cache.empty 0 "USD" ⟨none, some 1000000, some 2000000⟩
        (.ok (some [⟨some 5, none, none, none, none⟩, ⟨some 5, none, none, none, none⟩]))).2
      = .ok [⟨5000, 0, 0, 0, 0⟩, ⟨5000, 0, 0, 0, 0⟩]
    ∧ DovizcomProvider.resolveHistoryRange 0 ⟨none, some 1000000, some 2000000⟩ = (1000000, 2000000)
    ∧ (5000 : ℤ) < 1000000 := by
  refine ⟨by decide, by decide, by decide⟩

/-! ### C4 — cache keys vs resolved ranges -/

/--
C4 (amended). For doviz.com and TEFAS historical fetches the cache key is
built from the identifier and the resolved start/end instants, so two
requests with the same asset and the same resolved range use the same
cache entry: a second doviz.com request whose resolved range equals a
first, cached one (within the history TTL) returns the first request's
records without touching its own fetch. `ParaticProvider.getHistory`,
however, keys on the symbolic period and interval tokens plus only the
explicitly supplied start/end, not on the resolved instants.
-/
theorem history_cache_key_resolved_range_spec (asset fund : String)
    (o1 o2 : RangeHistoryOptions) (n1 n2 : ℤ) (body1 : List ArchiveItem)
    (fetch2 : Except String (Option (List ArchiveItem)))
    (hres : DovizcomProvider.resolveHistoryRange n1 o1 = DovizcomProvider.resolveHistoryRange n2 o2)
    (hsup : DovizcomProvider.SUPPORTED_ASSETS.contains (DovizcomProvider.normalizeAsset asset) = true)
    (httl : n2 ≤ n1 + TTL_OHLCV_HISTORY * 1000) :
    ((DovizcomProvider.getHistory
        (DovizcomProvider.getHistory Cache.empty n1 asset o1 (.ok (some body1))).1
        n2 asset o2 fetch2).2
      = (DovizcomProvider.getHistory Cache.empty n1 asset o1 (.ok (some body1))).2
    ∧ (DovizcomProvider.getHistory Cache.empty n1 asset o1 (.ok (some body1))).2
      = .ok (DovizcomProvider.normalizeHistory body1))
    ∧ (TefasProvider.resolveHistoryRange n1 o1 = TefasProvider.resolveHistoryRange n2 o2 →
        TefasProvider.historyCacheKey fund (TefasProvider.resolveHistoryRange n1 o1).1
            (TefasProvider.resolveHistoryRange n1 o1).2
          = TefasProvider.historyCacheKey fund (TefasProvider.resolveHistoryRange n2 o2).1
            (TefasProvider.resolveHistoryRange n2 o2).2) := by
  have hcond : ¬ (DovizcomProvider.SUPPORTED_ASSETS.contains (DovizcomProvider.normalizeAsset asset)
      = false) := by
    rw [hsup]
    simp
  have hrun1 : DovizcomProvider.getHistory Cache.empty n1 asset o1 (.ok (some body1))
      = ((Cache.empty.set
            (DovizcomProvider.historyCacheKey (DovizcomProvider.normalizeAsset asset)
              (DovizcomProvider.resolveHistoryRange n1 o1).1
              (DovizcomProvider.resolveHistoryRange n1 o1).2)
            (DovizcomProvider.normalizeHistory body1) TTL_OHLCV_HISTORY n1),
          .ok (DovizcomProvider.normalizeHistory body1)) := by
    unfold DovizcomProvider.getHistory
    rw [if_neg hcond]
    rfl
  refine ⟨⟨?_, by rw [hrun1]⟩, ?_⟩
  · rw [hrun1]
    show (DovizcomProvider.getHistory _ n2 asset o2 fetch2).2 = _
    unfold DovizcomProvider.getHistory
    rw [if_neg hcond, ← hres]
    rw [cache_get_eq_of_find _ n2 _ (DovizcomProvider.normalizeHistory body1)
      (n1 + TTL_OHLCV_HISTORY * 1000) (cache_find_set _ _ _ _ _)]
    rw [if_neg (not_lt.mpr httl)]
  · intro ht
    rw [ht]

/-- Witness for C4's amended theorem: `period = "5d"` ending at
`432000000` ms and the explicit range `[0, 432000000]` resolve to the same
instants; the cached doviz.com records are returned for the second request
even though its own fetch fails. -/
theorem history_cache_key_resolved_range_spec_witness :
    ((DovizcomProvider.getHistory
        (DovizcomProvider.getHistory Cache.empty 0 "USD" ⟨some "5d", none, some 432000000⟩
          (.ok (some [⟨some 1, none, none, none, none⟩]))).1
        1000 "USD" ⟨none, some 0, some 432000000⟩ (.error "connection refused")).2
      = (DovizcomProvider.getHistory Cache.empty 0 "USD" ⟨some "5d", none, some 432000000⟩
          (.ok (some [⟨some 1, none, none, none, none⟩]))).2
    ∧ (DovizcomProvider.getHistory Cache.empty 0 "USD" ⟨some "5d", none, some 432000000⟩
          (.ok (some [⟨some 1, none, none, none, none⟩]))).2
      = .ok (DovizcomProvider.normalizeHistory [⟨some 1, none, none, none, none⟩]))
    ∧ (TefasProvider.resolveHistoryRange 0 ⟨some "5d", none, some 432000000⟩
          = TefasProvider.resolveHistoryRange 1000 ⟨none, some 0, some 432000000⟩ →
        TefasProvider.historyCacheKey "YAC"
            (TefasProvider.resolveHistoryRange 0 ⟨some "5d", none, some 432000000⟩).1
            (TefasProvider.resolveHistoryRange 0 ⟨some "5d", none, some 432000000⟩).2
          = TefasProvider.historyCacheKey "YAC"
            (TefasProvider.resolveHistoryRange 1000 ⟨none, some 0, some 432000000⟩).1
            (TefasProvider.resolveHistoryRange 1000 ⟨none, some 0, some 432000000⟩).2) := by
  exact history_cache_key_resolved_range_spec "USD" "YAC"
    ⟨some "5d", none, some 432000000⟩ ⟨none, some 0, some 432000000⟩ 0 1000
    [⟨some 1, none, none, none, none⟩] (.error "connection refused")
    (by decide) (by decide) (by decide)

/--
C4 counterexample for the claim as stated, on `ParaticProvider.getHistory`:
(1) two requests with identical resolved ranges `[0, 86400000]` but
different period tokens (`1mo` vs `5d`) do not share a cache entry — the
second fetches fresh data instead of hitting the first's entry; (2) two
period-resolved requests (`1mo`, no explicit bounds) issued at different
instants have different resolved ranges yet share one cache entry — the
second returns the first's records, its own fetch unused.
-/
theorem paratic_history_cache_key_claim_cex :
    (ParaticProvider.resolveHistoryRange 0 ⟨some "1mo", some "1d", some 0, some 86400000⟩
        = ParaticProvider.resolveHistoryRange 0 ⟨some "5d", some "1d", some 0, some 86400000⟩
      ∧ (ParaticProvider.getHistory
            (ParaticProvider.getHistory Cache.empty 0 "THYAO"
              ⟨some "1mo", some "1d", some 0, some 86400000⟩
              (.ok (some [⟨1000, 1, 1, 1, 1, 1⟩]))).1
            0 "THYAO" ⟨some "5d", some "1d", some 0, some 86400000⟩
            (.ok (some [⟨2000, 2, 2, 2, 2, 2⟩]))).2 = .ok [⟨2000, 2, 2, 2, 2, 2⟩]
      ∧ (ParaticProvider.getHistory Cache.empty 0 "THYAO"
            ⟨some "1mo", some "1d", some 0, some 86400000⟩
            (.ok (some [⟨1000, 1, 1, 1, 1, 1⟩]))).2 = .ok [⟨1000, 1, 1, 1, 1, 1⟩])
    ∧ (ParaticProvider.resolveHistoryRange 0 ⟨some "1mo", some "1d", none, none⟩
        ≠ ParaticProvider.resolveHistoryRange 1000000 ⟨some "1mo", some "1d", none, none⟩
      ∧ (ParaticProvider.getHistory
            (ParaticProvider.getHistory Cache.empty 0 "THYAO"
              ⟨some "1mo", some "1d", none, none⟩
              (.ok (some [⟨-1000, 1, 1, 1, 1, 1⟩]))).1
            1000000 "THYAO" ⟨some "1mo", some "1d", none, none⟩
            (.ok (some [⟨-2000, 2, 2, 2, 2, 2⟩]))).2 = .ok [⟨-1000, 1, 1, 1, 1, 1⟩]) := by
  refine ⟨⟨by decide, by decide, by decide⟩, by decide, by decide⟩

/-! ### C5 — unrecognized period tokens -/

/--
C5 (code observation). `ParaticProvider.getHistory` can never produce
`InvalidPeriodError`: its only error outcomes are `DataNotAvailableError`
and `APIError`. A period token outside the recognized enumeration, such as
`"99x"`, is resolved through `PERIOD_MAP[period] ?? 30` to the default
30-day window and the operation returns data computed from it — the
`InvalidPeriodError` class of `src/exceptions.ts` (which carries the value
and the accepted list) is defined but never raised.
-/
theorem paratic_history_period_99x_default :
    (∀ (cache : Cache (List OHLCVData)) (now : ℤ) (symbol : String) (opts : HistoryOptions)
        (fetch : Except String (Option (List ParaticDataItem))) (p : String),
      (ParaticProvider.getHistory cache now symbol opts fetch).2 ≠ .error (.invalidPeriod p))
    ∧ ParaticProvider.resolveHistoryRange 0 ⟨some "99x", some "1d", none, none⟩
        = (-2592000000, 0)
    ∧ (ParaticProvider.getHistory Cache.empty 0 "THYAO" ⟨some "99x", some "1d", none, none⟩
        (.ok (some [⟨-1000, 1, 1, 1, 1, 1⟩]))).2 = .ok [⟨-1000, 1, 1, 1, 1, 1⟩] := by
  refine ⟨?_, by decide, by decide⟩
  intro cache now symbol opts fetch p heq
  unfold ParaticProvider.getHistory at heq
  split at heq
  · simp at heq
  · split at heq
    · simp at heq
    · split at heq <;> simp at heq

/-! ## Domain facades — `src/fx.ts` and the two `src/ticker.ts` variants -/

/-- `FXCurrentData` of `src/providers/dovizcom.ts`. -/
structure FXCurrentData : Type where
  symbol : String
  last : ℚ
  «open» : ℚ
  high : ℚ
  low : ℚ
  updateTime : Option ℤ := none
deriving DecidableEq, Repr

/-- The `FX` facade (`src/fx.ts`): an asset code plus the private
`_currentCache` snapshot. -/
structure FX : Type where
  asset : String
  currentCache : Option FXCurrentData := none
deriving DecidableEq, Repr

namespace FX

/-- `FX.getCurrent` (`src/fx.ts` lines 119-122): fetch through the doviz.com
provider only when `_currentCache` is unset, store the result, return it.
`fetch` stands for `getDovizcomProvider().getCurrent`; a thrown provider
error propagates and leaves the cache unset. -/
def getCurrent (s : FX) (fetch : String → Except BorsajsError FXCurrentData) :
    FX × Except BorsajsError FXCurrentData :=
  match s.currentCache with
  | some v => (s, .ok v)
  | none =>
    match fetch s.asset with
    | .ok v => ({ s with currentCache := some v }, .ok v)
    | .error e => (s, .error e)

/-- `FX.getInfo` — alias for `getCurrent`. -/
def getInfo (s : FX) (fetch : String → Except BorsajsError FXCurrentData) :
    FX × Except BorsajsError FXCurrentData :=
  s.getCurrent fetch

end FX

/-- `TickerInfo` of the Paratic-backed `src/ticker.ts`:
`{ ...quote, type: 'stock' }`. -/
structure TickerInfo : Type where
  quote : QuoteData
  type : String
deriving DecidableEq, Repr

/-- The Paratic-backed `Ticker` facade (`src/ticker.ts`): normalized symbol
plus the private `_infoCache` snapshot. -/
structure Ticker : Type where
  symbol : String
  infoCache : Option TickerInfo := none
deriving DecidableEq, Repr

namespace Ticker

/-- The `Ticker` constructor normalizes the symbol. -/
def new (symbol : String) : Ticker := ⟨normalizeSymbol symbol, none⟩

/-- `Ticker.getInfo` (Paratic variant, lines 15-21): fetch a quote only when
`_infoCache` is unset, tag it with `type: 'stock'`, store and return it. -/
def getInfo (s : Ticker) (fetch : String → Except BorsajsError QuoteData) :
    Ticker × Except BorsajsError TickerInfo :=
  match s.infoCache with
  | some v => (s, .ok v)
  | none =>
    match fetch s.symbol with
    | .ok q => ({ s with infoCache := some ⟨q, "stock"⟩ }, .ok ⟨q, "stock"⟩)
    | .error e => (s, .error e)

end Ticker

/-- `TradingViewQuote` of `src/providers/tradingview.ts`; the data fields
are patched in incrementally from `qsd` frames, so any of them can be
absent when the quote is assembled. -/
structure TradingViewQuote : Type where
  symbol : String
  exchange : String
  last : Option ℚ := none
  change : Option ℚ := none
  changePercent : Option ℚ := none
  «open» : Option ℚ := none
  high : Option ℚ := none
  low : Option ℚ := none
  prevClose : Option ℚ := none
  volume : Option ℚ := none
  bid : Option ℚ := none
  ask : Option ℚ := none
  bidSize : Option ℚ := none
  askSize : Option ℚ := none
  timestamp : Option ℚ := none
  description : Option String := none
  currency : Option String := none
deriving DecidableEq, Repr

/-- `TickerInfo` of the TradingView-backed `src/ticker.ts` variant. -/
structure TickerTVInfo : Type where
  quote : TradingViewQuote
  type : String
deriving DecidableEq, Repr

/-- The TradingView-backed `Ticker` facade variant. -/
structure TickerTV : Type where
  symbol : String
  infoCache : Option TickerTVInfo := none
deriving DecidableEq, Repr

namespace TickerTV

/-- `Ticker.getInfo` of the TradingView variant (lines 21-30): it fetches a
fresh quote on every call ("For now, let's just fetch it."), overwriting
`_infoCache`, and never reads the stored snapshot. -/
def getInfo (s : TickerTV) (fetch : String → Except BorsajsError TradingViewQuote) :
    TickerTV × Except BorsajsError TickerTVInfo :=
  match fetch s.symbol with
  | .ok q => ({ s with infoCache := some ⟨q, "stock"⟩ }, .ok ⟨q, "stock"⟩)
  | .error e => (s, .error e)

end TickerTV

/-! ### C6 — facade-level snapshot caching -/

/--
C6 (amended). `FX.getCurrent`/`getInfo` and the Paratic-backed
`Ticker.getInfo` cache the first successfully fetched snapshot for the
instance's lifetime: with a stored snapshot the call returns it unchanged
for every provider behaviour (the provider is not consulted), and a first
successful call stores what it fetched. The TradingView-backed
`Ticker.getInfo`, however, fetches on every call and overwrites its stored
snapshot, never returning the cached one.
-/
theorem facade_snapshot_cache_spec (s : FX) (t : Ticker) (u : TickerTV)
    (ffx : String → Except BorsajsError FXCurrentData)
    (ft : String → Except BorsajsError QuoteData)
    (fu : String → Except BorsajsError TradingViewQuote)
    (v : FXCurrentData) (info : TickerInfo) (q : QuoteData) (tq : TradingViewQuote) :
    (s.currentCache = some v → s.getCurrent ffx = (s, .ok v) ∧ s.getInfo ffx = (s, .ok v))
    ∧ (s.currentCache = none → ffx s.asset = .ok v →
        s.getCurrent ffx = ({ s with currentCache := some v }, .ok v))
    ∧ (t.infoCache = some info → t.getInfo ft = (t, .ok info))
    ∧ (t.infoCache = none → ft t.symbol = .ok q →
        t.getInfo ft = ({ t with infoCache := some ⟨q, "stock"⟩ }, .ok ⟨q, "stock"⟩))
    ∧ (fu u.symbol = .ok tq →
        u.getInfo fu = ({ u with infoCache := some ⟨tq, "stock"⟩ }, .ok ⟨tq, "stock"⟩)) := by
  refine ⟨?_, ?_, ?_, ?_, ?_⟩
  · intro h
    unfold FX.getInfo FX.getCurrent
    rw [h]
    exact ⟨rfl, rfl⟩
  · intro h hf
    unfold FX.getCurrent
    rw [h, hf]
  · intro h
    unfold Ticker.getInfo
    rw [h]
  · intro h hf
    unfold Ticker.getInfo
    rw [h, hf]
  · intro hf
    unfold TickerTV.getInfo
    rw [hf]

/-- Witness for C6: concrete cached and uncached facade calls. -/
theorem facade_snapshot_cache_spec_witness :
    ((FX.mk "USD" (some ⟨"USD", 1, 1, 1, 1, none⟩)).getCurrent
        (fun _ => .error (.apiError "down" none)) = (FX.mk "USD" (some ⟨"USD", 1, 1, 1, 1, none⟩), .ok ⟨"USD", 1, 1, 1, 1, none⟩)
      ∧ (FX.mk "USD" (some ⟨"USD", 1, 1, 1, 1, none⟩)).getInfo
        (fun _ => .error (.apiError "down" none)) = (FX.mk "USD" (some ⟨"USD", 1, 1, 1, 1, none⟩), .ok ⟨"USD", 1, 1, 1, 1, none⟩))
    ∧ (TickerTV.mk "THYAO" none).getInfo (fun _ => .ok { symbol := "THYAO", exchange := "BIST" })
      = (TickerTV.mk "THYAO" (some ⟨{ symbol := "THYAO", exchange := "BIST" }, "stock"⟩),
         .ok ⟨{ symbol := "THYAO", exchange := "BIST" }, "stock"⟩) := by
  have h := facade_snapshot_cache_spec (FX.mk "USD" (some ⟨"USD", 1, 1, 1, 1, none⟩))
    (Ticker.mk "THYAO" none) (TickerTV.mk "THYAO" none)
    (fun _ => .error (.apiError "down" none))
    (fun _ => .error (.apiError "down" none))
    (fun _ => .ok { symbol := "THYAO", exchange := "BIST" })
    ⟨"USD", 1, 1, 1, 1, none⟩ ⟨⟨"X", 0, 0, 0, 0, 0, 0, 0, 0, 0⟩, "stock"⟩
    ⟨"X", 0, 0, 0, 0, 0, 0, 0, 0, 0⟩ { symbol := "THYAO", exchange := "BIST" }
  exact ⟨h.1 rfl, h.2.2.2.2 rfl⟩

/--
C6 counterexample: the TradingView-backed `Ticker.getInfo`, called on an
instance that already holds a stored snapshot (`last = 10`), returns the
freshly fetched quote (`last = 11`), not the stored snapshot — so a
subsequent `getInfo` does invoke the provider again and does not return the
first snapshot.
-/
theorem facade_snapshot_cache_claim_cex :
    ((TickerTV.mk "THYAO"
          (some ⟨{ symbol := "THYAO", exchange := "BIST", last := some 10 }, "stock"⟩)).getInfo
        (fun _ => .ok { symbol := "THYAO", exchange := "BIST", last := some 11 })).2
      = .ok ⟨{ symbol := "THYAO", exchange := "BIST", last := some 11 }, "stock"⟩
    ∧ (⟨{ symbol := "THYAO", exchange := "BIST", last := some 11 }, "stock"⟩ : TickerTVInfo)
      ≠ ⟨{ symbol := "THYAO", exchange := "BIST", last := some 10 }, "stock"⟩ := by
  refine ⟨rfl, by decide⟩

/-! ## `src/multi.ts` — batch download -/

/-- Symbol normalization of `download` (`src/multi.ts` line 37):
`.filter(s => s.trim()).map(s => s.trim().toUpperCase())`. -/
def normalizeSymbols (tickers : List String) : List String :=
  (tickers.filter (fun s => jsTrim s != "")).map (fun s => jsToUpper (jsTrim s))

/-- JS object property assignment `result[symbol] = data`. -/
def upsertResult (result : List (String × List OHLCVData)) (symbol : String)
    (data : List OHLCVData) : List (String × List OHLCVData) :=
  result.filter (fun e => e.1 ≠ symbol) ++ [(symbol, data)]

/-- JS object property read `result[s]`. -/
def lookupKey {α : Type} : List (String × α) → String → Option α
  | [], _ => none
  | e :: es, s => if e.1 = s then some e.2 else lookupKey es s

/-- One iteration of the `download` loop (`src/multi.ts` lines 42-44):
`try { const data = await provider.getHistory(symbol, ...); if (data.length
> 0) result[symbol] = data; } catch { }`. -/
def downloadStep (fetch : String → Except BorsajsError (List OHLCVData))
    (result : List (String × List OHLCVData)) (symbol : String) :
    List (String × List OHLCVData) :=
  match fetch symbol with
  | .ok data => if data.length > 0 then upsertResult result symbol data else result
  | .error _ => result

/-- The `for (const symbol of symbols)` loop of `download`. -/
def downloadLoop (fetch : String → Except BorsajsError (List OHLCVData)) :
    List String → List (String × List OHLCVData) → List (String × List OHLCVData)
  | [], result => result
  | symbol :: rest, result => downloadLoop fetch rest (downloadStep fetch result symbol)

/-- `download` (`src/multi.ts` lines 36-46). `fetch` stands for
`getParaticProvider().getHistory(symbol, { period, interval, start, end })`
with the batch's fixed options; the thrown `Error('No symbols provided')`
is the `.error` case. -/
def download (fetch : String → Except BorsajsError (List OHLCVData)) (tickers : List String) :
    Except String (List (String × List OHLCVData)) :=
  if (normalizeSymbols tickers).length = 0 then .error "No symbols provided"
  else .ok (downloadLoop fetch (normalizeSymbols tickers) [])

/-- The per-symbol outcome that `download` keeps: the fetched bars when the
fetch succeeded with a nonempty sequence, absent otherwise. -/
def fetchOkData (fetch : String → Except BorsajsError (List OHLCVData)) (s : String) :
    Option (List OHLCVData) :=
  match fetch s with
  | .ok data => if data.length > 0 then some data else none
  | .error _ => none

theorem lookupKey_append {α : Type} (l1 l2 : List (String × α)) (s : String) :
    lookupKey (l1 ++ l2) s
      = match lookupKey l1 s with
        | some v => some v
        | none => lookupKey l2 s := by
  induction l1 with
  | nil => simp [lookupKey]
  | cons e es ih =>
    by_cases he : e.1 = s <;> simp [lookupKey, he, ih]

theorem lookupKey_filter_ne {α : Type} (l : List (String × α)) (symbol s : String)
    (hs : s ≠ symbol) :
    lookupKey (l.filter (fun e => e.1 ≠ symbol)) s = lookupKey l s := by
  induction l with
  | nil => rfl
  | cons e es ih =>
    by_cases he : e.1 = symbol
    · rw [List.filter_cons_of_neg (by simp [he])]
      rw [ih, lookupKey]
      rw [if_neg (by rw [he]; exact fun h => hs h.symm)]
    · rw [List.filter_cons_of_pos (by simp [he])]
      by_cases hes : e.1 = s
      · rw [lookupKey, lookupKey, if_pos hes, if_pos hes]
      · rw [lookupKey, lookupKey, if_neg hes, if_neg hes, ih]

theorem lookupKey_filter_self {α : Type} (l : List (String × α)) (symbol : String) :
    lookupKey (l.filter (fun e => e.1 ≠ symbol)) symbol = none := by
  induction l with
  | nil => rfl
  | cons e es ih =>
    by_cases he : e.1 = symbol
    · rw [List.filter_cons_of_neg (by simp [he])]
      exact ih
    · rw [List.filter_cons_of_pos (by simp [he]), lookupKey, if_neg he]
      exact ih

theorem lookupKey_upsertResult (result : List (String × List OHLCVData))
    (symbol : String) (data : List OHLCVData) (s : String) :
    lookupKey (upsertResult result symbol data) s
      = if s = symbol then some data else lookupKey result s := by
  unfold upsertResult
  rw [lookupKey_append]
  by_cases hs : s = symbol
  · subst hs
    rw [lookupKey_filter_self, if_pos rfl]
    simp [lookupKey]
  · rw [lookupKey_filter_ne _ _ _ hs, if_neg hs]
    cases hl : lookupKey result s with
    | none =>
      dsimp only
      rw [lookupKey, if_neg (fun h : symbol = s => hs h.symm)]
      rfl
    | some v => rfl

theorem lookupKey_downloadStep (fetch : String → Except BorsajsError (List OHLCVData))
    (result : List (String × List OHLCVData)) (symbol s : String) :
    lookupKey (downloadStep fetch result symbol) s
      = if s = symbol ∧ (fetchOkData fetch s).isSome then fetchOkData fetch s
        else lookupKey result s := by
  unfold downloadStep
  cases hf : fetch symbol with
  | error e =>
    dsimp only
    by_cases hs : s = symbol
    · subst hs
      rw [if_neg]
      simp [fetchOkData, hf]
    · rw [if_neg (by tauto)]
  | ok data =>
    dsimp only
    by_cases hlen : data.length > 0
    · rw [if_pos hlen, lookupKey_upsertResult]
      by_cases hs : s = symbol
      · subst hs
        rw [if_pos rfl, if_pos]
        · simp [fetchOkData, hf, hlen]
        · simp [fetchOkData, hf, hlen]
      · rw [if_neg hs, if_neg (by tauto)]
    · rw [if_neg hlen]
      by_cases hs : s = symbol
      · subst hs
        rw [if_neg]
        simp [fetchOkData, hf, hlen]
      · rw [if_neg (by tauto)]

theorem lookupKey_downloadLoop (fetch : String → Except BorsajsError (List OHLCVData))
    (symbols : List String) (acc : List (String × List OHLCVData)) (s : String) :
    lookupKey (downloadLoop fetch symbols acc) s
      = if s ∈ symbols ∧ (fetchOkData fetch s).isSome then fetchOkData fetch s
        else lookupKey acc s := by
  induction symbols generalizing acc with
  | nil => simp [downloadLoop]
  | cons sym rest ih =>
    rw [downloadLoop, ih, lookupKey_downloadStep]
    by_cases hP : (fetchOkData fetch s).isSome
    · by_cases h1 : s ∈ rest
      · rw [if_pos ⟨h1, hP⟩, if_pos ⟨List.mem_cons_of_mem _ h1, hP⟩]
      · rw [if_neg (by tauto)]
        by_cases h2 : s = sym
        · rw [if_pos ⟨h2, hP⟩, if_pos ⟨List.mem_cons.mpr (Or.inl h2), hP⟩]
        · rw [if_neg (by tauto), if_neg ?hc]
          case hc =>
            rintro ⟨hm, -⟩
            rcases List.mem_cons.mp hm with h | h
            · exact h2 h
            · exact h1 h
    · rw [if_neg (by tauto), if_neg (by tauto), if_neg (by tauto)]

/--
C7. The batch download fetches each symbol independently and skips a
symbol whose fetch throws: for every fetch behaviour and every symbol list
(nonempty after normalization) the download returns a result map, never
propagating a per-symbol error, and the map holds an entry for exactly the
normalized symbols whose fetch succeeded with a nonempty bar sequence —
each bound to its own fetched data, so one symbol's failure cannot affect
another symbol's entry.
-/
theorem download_partial_failure_spec (fetch : String → Except BorsajsError (List OHLCVData))
    (tickers : List String) (h : normalizeSymbols tickers ≠ []) :
    ∃ m, download fetch tickers = .ok m
      ∧ ∀ s d, lookupKey m s = some d ↔
          (s ∈ normalizeSymbols tickers ∧ fetch s = .ok d ∧ d ≠ []) := by
  refine ⟨downloadLoop fetch (normalizeSymbols tickers) [], ?_, ?_⟩
  · unfold download
    rw [if_neg (by simpa using h)]
  · intro s d
    rw [lookupKey_downloadLoop]
    constructor
    · intro hl
      by_cases hc : s ∈ normalizeSymbols tickers ∧ (fetchOkData fetch s).isSome
      · rw [if_pos hc] at hl
        refine ⟨hc.1, ?_⟩
        unfold fetchOkData at hl
        cases hf : fetch s with
        | error e => rw [hf] at hl; simp at hl
        | ok data =>
          rw [hf] at hl
          dsimp only at hl
          by_cases hlen : data.length > 0
          · rw [if_pos hlen] at hl
            cases hl
            refine ⟨rfl, ?_⟩
            intro hnil
            subst hnil
            simp at hlen
          · rw [if_neg hlen] at hl
            simp at hl
      · rw [if_neg hc] at hl
        simp [lookupKey] at hl
    · rintro ⟨hmem, hf, hne⟩
      have hok : fetchOkData fetch s = some d := by
        unfold fetchOkData
        rw [hf]
        dsimp only
        rw [if_pos (by simpa using List.length_pos.mpr hne)]
      rw [if_pos ⟨hmem, by simp [hok]⟩]
      exact hok

/-- Witness for C7: `["GOOD", "BAD", "GOOD2"]` with `"BAD"` failing
upstream. -/
theorem download_partial_failure_spec_witness :
    ∃ m, download
        ((fun s => if s = "GOOD" then .ok [⟨1, 1, 1, 1, 1, 1⟩]
          else if s = "GOOD2" then .ok [⟨2, 2, 2, 2, 2, 2⟩]
          else .error (.apiError "upstream failure" none)) :
            String → Except BorsajsError (List OHLCVData))
        ["GOOD", "BAD", "GOOD2"] = .ok m
      ∧ ∀ s d, lookupKey m s = some d ↔
          (s ∈ normalizeSymbols ["GOOD", "BAD", "GOOD2"]
            ∧ ((fun s => if s = "GOOD" then .ok [⟨1, 1, 1, 1, 1, 1⟩]
                else if s = "GOOD2" then .ok [⟨2, 2, 2, 2, 2, 2⟩]
                else .error (.apiError "upstream failure" none)) :
                  String → Except BorsajsError (List OHLCVData)) s = .ok d
            ∧ d ≠ []) := by
  exact download_partial_failure_spec _ _ (by decide)

/--
C10. A symbol whose history fetch succeeds with an empty bar sequence is
omitted from the download result exactly as if the fetch had failed: the
whole download result is unchanged when such a symbol's outcome is replaced
by a thrown error, and the symbol's key is absent from the result map.
-/
theorem download_empty_as_failure_spec
    (fetch fetch' : String → Except BorsajsError (List OHLCVData))
    (tickers : List String) (s0 : String) (e : BorsajsError)
    (hagree : ∀ s, s ≠ s0 → fetch' s = fetch s)
    (h0 : fetch s0 = .ok []) (h0' : fetch' s0 = .error e) :
    download fetch tickers = download fetch' tickers
    ∧ ∀ m, download fetch tickers = .ok m → lookupKey m s0 = none := by
  have hstep : ∀ result symbol, downloadStep fetch result symbol
      = downloadStep fetch' result symbol := by
    intro result symbol
    unfold downloadStep
    by_cases hs : symbol = s0
    · subst hs
      rw [h0, h0']
      simp
    · rw [hagree symbol hs]
  have hloop : ∀ symbols acc, downloadLoop fetch symbols acc
      = downloadLoop fetch' symbols acc := by
    intro symbols
    induction symbols with
    | nil => intro acc; rfl
    | cons sym rest ih =>
      intro acc
      rw [downloadLoop, downloadLoop, hstep, ih]
  constructor
  · unfold download
    rw [hloop]
  · intro m hm
    unfold download at hm
    by_cases hn : (normalizeSymbols tickers).length = 0
    · rw [if_pos hn] at hm
      cases hm
    · rw [if_neg hn] at hm
      cases hm
      rw [lookupKey_downloadLoop]
      rw [if_neg]
      · simp [lookupKey]
      · rintro ⟨-, hsome⟩
        unfold fetchOkData at hsome
        rw [h0] at hsome
        simp at hsome

/-- Witness for C10: replacing the `"EMPTY"` symbol's empty-but-successful
fetch by a thrown error leaves the download result unchanged, and
`"EMPTY"` is absent from it. -/
theorem download_empty_as_failure_spec_witness :
    download (fun s => if s = "EMPTY" then .ok [] else .ok [⟨1, 1, 1, 1, 1, 1⟩])
        ["GOOD", "EMPTY"]
      = download (fun s => if s = "EMPTY" then .error (.apiError "boom" none)
          else .ok [⟨1, 1, 1, 1, 1, 1⟩]) ["GOOD", "EMPTY"]
    ∧ ∀ m, download (fun s => if s = "EMPTY" then .ok [] else .ok [⟨1, 1, 1, 1, 1, 1⟩])
        ["GOOD", "EMPTY"] = .ok m → lookupKey m "EMPTY" = none := by
  exact download_empty_as_failure_spec _ _ ["GOOD", "EMPTY"] "EMPTY" (.apiError "boom" none)
    (fun s hs => by simp [hs]) (by simp) (by simp)

/-! ## `src/providers/tradingview.ts` — streaming session timeout handling -/

/-- `TradingViewBar` (`time` in Unix seconds as streamed). -/
structure TradingViewBar : Type where
  time : ℤ
  «open» : ℚ
  high : ℚ
  low : ℚ
  close : ℚ
  volume : ℚ
deriving DecidableEq, Repr

namespace TradingViewProvider

/-- `periods[ts] = {...}` — keyed accumulation of bar data, one bar per
timestamp. -/
def upsertBar (periods : List (ℤ × TradingViewBar)) (ts : ℤ) (bar : TradingViewBar) :
    List (ℤ × TradingViewBar) :=
  periods.filter (fun e => e.1 ≠ ts) ++ [(ts, bar)]

/-- The `timescale_update` handler's candle loop (`src/providers/kap.ts`
lines 294-310): for every candle value array with at least 6 entries,
store a bar under `Math.floor(v[0])`. -/
def processCandles (periods : List (ℤ × TradingViewBar)) (seriesData : List (List ℚ)) :
    List (ℤ × TradingViewBar) :=
  seriesData.foldl (fun acc v =>
    if v.length ≥ 6 then
      upsertBar acc ⌊v.getD 0 0⌋
        { time := ⌊v.getD 0 0⌋, «open» := v.getD 1 0, high := v.getD 2 0,
          low := v.getD 3 0, close := v.getD 4 0, volume := v.getD 5 0 }
    else acc) periods

/-- `Object.values(periods).sort((a, b) => a.time - b.time)`. -/
def sortedBars (periods : List (ℤ × TradingViewBar)) : List TradingViewBar :=
  sortByKey (fun b => b.time) (periods.map Prod.snd)

/-- The `getHistory` timeout handler (`src/providers/kap.ts` lines
337-345): always `cleanup()` (clear the timer, close the socket); resolve
with the accumulated bars, time-sorted, when data was received, otherwise
reject with an `APIError`. The `Bool` component records that `cleanup` ran. -/
def historyOnTimeout (dataReceived : Bool) (periods : List (ℤ × TradingViewBar)) :
    Bool × Except BorsajsError (List TradingViewBar) :=
  (true,
   if dataReceived then .ok (sortedBars periods)
   else .error (.apiError "Timeout waiting for TradingView data" none))

/-- `rawData = { ...rawData, ...v }` — the `qsd` field merge of `getQuote`. -/
def quoteRawMerge (rawData v : List (String × ℚ)) : List (String × ℚ) :=
  v.foldl (fun acc kv => acc.filter (fun e => e.1 ≠ kv.1) ++ [kv]) rawData

/-- `dataComplete` is set exactly when the required last-price field `lp`
has been observed (`src/providers/kap.ts` lines 396-398). -/
def quoteDataComplete (rawData : List (String × ℚ)) : Bool :=
  rawData.any (fun e => e.1 = "lp")

/-- The `getQuote` timeout handler (`src/providers/kap.ts` lines 441-445):
if the quote is already complete the handler does nothing (`return`; the
message path has resolved and cleaned up); otherwise it cleans up and
rejects — it never resolves with a partial quote. -/
def quoteOnTimeout (dataComplete : Bool) : Option (Bool × BorsajsError) :=
  if dataComplete then none
  else some (true, .apiError "Timeout waiting for TradingView quote" none)

end TradingViewProvider

/-! ### C8 — fixed timeout: partial bars resolve, partial quotes reject -/

/--
C8. When the streaming provider's 10-second timeout fires: a bar-history
request that has received data resolves successfully with the accumulated
bars sorted ascending by time, while a quote request that has not yet
observed its required `lp` (last price) field rejects with an `APIError`
instead of resolving partially; and on both terminal timeout paths the
handler runs `cleanup()`, which clears the timer and closes the WebSocket.
-/
theorem tradingview_timeout_spec (periods : List (ℤ × TradingViewBar))
    (rawData : List (String × ℚ)) :
    (TradingViewProvider.historyOnTimeout true periods
        = (true, .ok (TradingViewProvider.sortedBars periods))
      ∧ (TradingViewProvider.sortedBars periods).Pairwise (fun a b => a.time ≤ b.time))
    ∧ (TradingViewProvider.historyOnTimeout false periods).1 = true
    ∧ (TradingViewProvider.quoteDataComplete rawData = false →
        TradingViewProvider.quoteOnTimeout (TradingViewProvider.quoteDataComplete rawData)
          = some (true, .apiError "Timeout waiting for TradingView quote" none))
    ∧ TradingViewProvider.quoteOnTimeout true = none := by
  refine ⟨⟨rfl, pairwise_sortByKey _ _⟩, rfl, ?_, rfl⟩
  intro h
  rw [h]
  rfl

/-- Witness for C8: two accumulated bars arriving out of order and a quote
whose only observed field is `volume`. -/
theorem tradingview_timeout_spec_witness :
    (TradingViewProvider.historyOnTimeout true
          [(5, ⟨5, 1, 1, 1, 1, 1⟩), (3, ⟨3, 2, 2, 2, 2, 2⟩)]
        = (true, .ok (TradingViewProvider.sortedBars
            [(5, ⟨5, 1, 1, 1, 1, 1⟩), (3, ⟨3, 2, 2, 2, 2, 2⟩)]))
      ∧ (TradingViewProvider.sortedBars
          [(5, ⟨5, 1, 1, 1, 1, 1⟩), (3, ⟨3, 2, 2, 2, 2, 2⟩)]).Pairwise
            (fun a b => a.time ≤ b.time))
    ∧ (TradingViewProvider.historyOnTimeout false
        [(5, ⟨5, 1, 1, 1, 1, 1⟩), (3, ⟨3, 2, 2, 2, 2, 2⟩)]).1 = true
    ∧ (TradingViewProvider.quoteDataComplete [("volume", 2)] = false →
        TradingViewProvider.quoteOnTimeout
            (TradingViewProvider.quoteDataComplete [("volume", 2)])
          = some (true, .apiError "Timeout waiting for TradingView quote" none))
    ∧ TradingViewProvider.quoteOnTimeout true = none := by
  exact tradingview_timeout_spec [(5, ⟨5, 1, 1, 1, 1, 1⟩), (3, ⟨3, 2, 2, 2, 2, 2⟩)]
    [("volume", 2)]

/-! ## `src/providers/tefas.ts` search and `src/providers/kap.ts` companies -/

/-- One row of the TEFAS fund-comparison payload (`ComparisonApiResponse`). -/
structure ComparisonItem : Type where
  FONKODU : Option String := none
  FONUNVAN : Option String := none
  FONTURACIKLAMA : Option String := none
  GETIRI1Y : Option ℚ := none
deriving DecidableEq, Repr

/-- `SearchResult` of `src/providers/tefas.ts`. -/
structure SearchResult : Type where
  fundCode : String
  name : String
  fundType : Option String := none
  return1y : Option ℚ := none
deriving DecidableEq, Repr

namespace TefasProvider

/-- The matching loop of `search` (`src/providers/tefas.ts` lines 309-326):
case-insensitive substring match on fund code or name, capped at `limit`. -/
def searchMatching (query : String) (limit : ℕ) (allFunds : List ComparisonItem) :
    List SearchResult :=
  ((allFunds.filter (fun f =>
      jsIncludes (jsToLower (f.FONKODU.getD "")) (jsToLower query)
        || jsIncludes (jsToLower (f.FONUNVAN.getD "")) (jsToLower query))).take limit).map
    (fun f => { fundCode := f.FONKODU.getD "", name := f.FONUNVAN.getD "",
                fundType := f.FONTURACIKLAMA, return1y := f.GETIRI1Y })

/-- `search` (`src/providers/tefas.ts` lines 274-333): cache, fetch, match;
the whole body is wrapped in `try { ... } catch { return []; }`, so any
fetch or parse failure degrades to an empty result list. -/
def search (cache : Cache (List SearchResult)) (now : ℤ) (query : String) (limit : ℕ)
    (fetch : Except String (Option (List ComparisonItem))) :
    Cache (List SearchResult) × List SearchResult :=
  match cache.get now ("tefas:search:" ++ query ++ ":" ++ toString limit) with
  | (cache1, some cached) => (cache1, cached)
  | (cache1, none) =>
    match fetch with
    | .error _ => (cache1, [])
    | .ok body =>
      (cache1.set ("tefas:search:" ++ query ++ ":" ++ toString limit)
          (searchMatching query limit (body.getD [])) TTL_FUND_DATA now,
       searchMatching query limit (body.getD []))

end TefasProvider

/-- `Company` of `src/providers/kap.ts`. -/
structure Company : Type where
  ticker : String
  name : String
  city : String
deriving DecidableEq, Repr

namespace KapProvider

/-- `getCompanies` (`src/providers/kap.ts` lines 16-31): cached company
list; on a fetch or parse failure it throws
`APIError('Failed to fetch companies: ...')` — it does not fall back to an
empty list. `fetchParse` models the HTML fetch plus table parse. -/
def getCompanies (cache : Cache (List Company)) (now : ℤ)
    (fetchParse : Except String (List Company)) :
    Cache (List Company) × Except BorsajsError (List Company) :=
  match cache.get now "kap:companies" with
  | (cache1, some cached) => (cache1, .ok cached)
  | (cache1, none) =>
    match fetchParse with
    | .error err => (cache1, .error (.apiError ("Failed to fetch companies: " ++ err) none))
    | .ok companies =>
      (cache1.set "kap:companies" companies TTL_COMPANY_LIST now, .ok companies)

/-- `search` (`src/providers/kap.ts` lines 33-37): filters the company
list; an error thrown by `getCompanies` propagates to the caller. -/
def search (cache : Cache (List Company)) (now : ℤ) (query : String)
    (fetchParse : Except String (List Company)) :
    Cache (List Company) × Except BorsajsError (List Company) :=
  match getCompanies cache now fetchParse with
  | (cache1, .error e) => (cache1, .error e)
  | (cache1, .ok companies) =>
    (cache1, .ok (companies.filter (fun c =>
      jsIncludes (jsToLower c.ticker) (jsToLower query)
        || jsIncludes (jsToLower c.name) (jsToLower query))))

end KapProvider

/-! ### C9 — error fallback of discovery lookups vs core operations -/

/--
C9 (amended). TEFAS fund search degrades to an empty result list when its
upstream fetch fails, and core quote/history operations propagate a
classified error (`APIError` wrapping the transport failure) — but KAP
company lookup and search do not degrade: a failed company fetch
propagates an `APIError` out of both `getCompanies` and `search`.
-/
theorem discovery_error_fallback_spec (now : ℤ) (query sym : String) (limit : ℕ)
    (e : String) (opts : HistoryOptions) :
    TefasProvider.search Cache.empty now query limit (.error e) = (Cache.empty, [])
    ∧ KapProvider.getCompanies Cache.empty now (.error e)
      = (Cache.empty, .error (.apiError ("Failed to fetch companies: " ++ e) none))
    ∧ KapProvider.search Cache.empty now query (.error e)
      = (Cache.empty, .error (.apiError ("Failed to fetch companies: " ++ e) none))
    ∧ (ParaticProvider.getQuote Cache.empty now sym (.error e)).2
      = .error (.apiError ("Failed to fetch quote for " ++ normalizeSymbol sym ++ ": " ++ e) none)
    ∧ (ParaticProvider.getHistory Cache.empty now sym opts (.error e)).2
      = .error (.apiError ("Failed to fetch data for " ++ normalizeSymbol sym ++ ": " ++ e) none) := by
  exact ⟨rfl, rfl, rfl, rfl, rfl⟩

/--
C9 counterexample: KAP company search is a discovery-style lookup, yet a
failing upstream fetch propagates an `APIError` instead of returning the
empty list the claim promises.
-/
theorem discovery_error_fallback_claim_cex :
    (KapProvider.search Cache.empty 0 "gar" (.error "ECONNRESET")).2
      = .error (.apiError "Failed to fetch companies: ECONNRESET" none)
    ∧ (KapProvider.search Cache.empty 0 "gar" (.error "ECONNRESET")).2 ≠ .ok [] := by
  exact ⟨rfl, by decide⟩
